import Mathlib

/-!
Shallow embedding of the nocodb `DataTableService`
(`src/packages/nocodb/src/services/data-table.service.ts`) together with
spec-level models of the external collaborators it calls (`BaseModel`
row storage, the list/pagination pipeline of `DatasService`), used to
verify the natural-language specification of the data-table CRUD core.

Conventions of the embedding:
  * `NcError.notFound` / `NcError.unprocessableEntity` throws become
    `Except.error` values carrying the same message strings as the source.
  * The external `Model.getBaseModelSQL` result (a SQL-backed row model)
    is embedded as a `Store` looked up in the environment by table id;
    mutating operations return the updated `Store` next to their response
    so post-state facts can be stated.
  * JavaScript plain-object-vs-array payloads (`Array.isArray` checks in
    the source) are embedded as the two constructors of `Body`.
-/

namespace NocoDB

/-- A stored row: a primary-key value and the field data
    (column title to value), both kept as strings. -/
structure Row where
  pk : String
  data : List (String × String)
deriving DecidableEq, Repr

/-- Table metadata, embedding the fields of the source `Model` that the
    service reads: `id`, `project_id`, `base_id`, and the ordered column
    title list used by field projection. -/
structure TableModel where
  id : String
  project_id : String
  base_id : String
  columns : List String
deriving DecidableEq, Repr

/-- View metadata, embedding the fields of the source `View` the service
    reads (`id`, `fk_model_id`, nullable) plus the view's persisted
    hidden-field set used by the list projection overlay. -/
structure View where
  id : String
  fk_model_id : Option String
  hiddenFields : List String
deriving DecidableEq, Repr

/-- Errors raised through `NcError` in the source, plus the bare
    `throw new Error(...)` used for the project-membership check. -/
inductive NcErr where
  | notFound (msg : String)
  | unprocessableEntity (msg : String)
  | internal (msg : String)
deriving DecidableEq, Repr

/-- Backing row store of one table (the embedding of a `BaseModel`):
    the current rows and the next auto-increment primary-key value. -/
structure Store where
  rows : List Row
  nextId : Nat
deriving DecidableEq, Repr

/-- The per-request environment: metadata lookup (`Model.get`,
    `View.get`) and the backing store of each table keyed by table id. -/
structure Env where
  models : String → Option TableModel
  views : String → Option View
  stores : String → Store

/-- A JavaScript value that is either a plain object or an array of
    objects; the source branches on `Array.isArray`. -/
inductive Body (α : Type) where
  | obj (x : α)
  | arr (xs : List α)
deriving DecidableEq, Repr

/-- True exactly on the array constructor (`Array.isArray` in the source). -/
def Body.isArr {α : Type} : Body α → Bool
  | .obj _ => false
  | .arr _ => true

/-! ### Spec-modelled store operations (the `BaseModel` collaborator) -/

/-- Modelled from the spec: `BaseModel.readByPk` of the external row
    model — fetches the row whose primary key equals the given row id
    (the request query projection is not modelled). -/
def Store.readByPk (s : Store) (rowId : String) : Option Row :=
  s.rows.find? (fun r => r.pk == rowId)

/-- Modelled from the spec: applying a mutation payload to a stored
    row's data — fields named in the payload take the payload value,
    all other fields keep their stored value. -/
def updateData (old upd : List (String × String)) : List (String × String) :=
  old.map (fun kv =>
    match upd.lookup kv.1 with
    | some v => (kv.1, v)
    | none => kv)

/-- Modelled from the spec: `BaseModel.bulkUpdate` — updates rows in
    place by primary key and echoes, per input record, the supplied
    primary-key value only, in input order. It never adds or removes
    rows. -/
def Store.bulkUpdate (s : Store) (records : List Row) : Store × List String :=
  ({ s with
      rows := s.rows.map (fun r =>
        match records.find? (fun u => u.pk == r.pk) with
        | some u => { r with data := updateData r.data u.data }
        | none => r) },
   records.map (fun u => u.pk))

/-- Modelled from the spec: `BaseModel.insert` — inserts one record,
    assigning the auto-increment primary key, and returns the inserted
    row. -/
def Store.insertRow (s : Store) (d : List (String × String)) : Store × Row :=
  let row : Row := { pk := toString s.nextId, data := d }
  ({ rows := s.rows ++ [row], nextId := s.nextId + 1 }, row)

/-- Modelled from the spec: `BaseModel.bulkInsert` — inserts the given
    records and returns the assigned primary keys in input order. -/
def Store.bulkInsert (s : Store) (ds : List (List (String × String))) :
    Store × List String :=
  match ds with
  | [] => (s, [])
  | d :: rest =>
    let p1 := s.insertRow d
    let p2 := p1.1.bulkInsert rest
    (p2.1, p1.2.pk :: p2.2)

/-! ### getModelAndView (source lines 167–192) -/

/-- The argument record of `getModelAndView`. -/
structure GMVParam where
  projectId : Option String
  viewId : Option String
  modelId : String

/-- The view-resolution half of `getModelAndView` (source lines
    182–189): when a `viewId` is supplied, a view that does not resolve,
    or whose `fk_model_id` is present and differs from the requested
    table, raises `unprocessableEntity('View not belong to model')`. -/
def resolveView (env : Env) (modelId : String) (viewId : Option String) :
    Except NcErr (Option View) :=
  match viewId with
  | none => .ok none
  | some vid =>
    match env.views vid with
    | none => .error (.unprocessableEntity "View not belong to model")
    | some view =>
      match view.fk_model_id with
      | some fk =>
        if fk = modelId then .ok (some view)
        else .error (.unprocessableEntity "View not belong to model")
      | none => .ok (some view)

/-- Embedding of `getModelAndView`: resolves the table
    (`notFound('Model not found')` when absent), checks project
    membership when a `projectId` is supplied, then resolves the
    optional view. -/
def getModelAndView (env : Env) (param : GMVParam) :
    Except NcErr (TableModel × Option View) :=
  match env.models param.modelId with
  | none => .error (.notFound "Model not found")
  | some model =>
    match param.projectId with
    | some pid =>
      if model.project_id = pid then
        (resolveView env param.modelId param.viewId).map (fun v => (model, v))
      else
        .error (.internal "Model not belong to project")
    | none => (resolveView env param.modelId param.viewId).map (fun v => (model, v))

/-! ### dataRead (source lines 26–50) -/

/-- The argument record of `dataRead` (the request query is not
    modelled; `readByPk` ignores it in the embedding). -/
structure ReadParam where
  projectId : Option String
  modelId : String
  rowId : String
  viewId : Option String

/-- Embedding of `dataRead`: resolve model and view, read the row by
    primary key, and raise `notFound('Row not found')` when no row
    matches. -/
def dataRead (env : Env) (p : ReadParam) : Except NcErr Row :=
  match getModelAndView env { projectId := p.projectId, viewId := p.viewId, modelId := p.modelId } with
  | .error e => .error e
  | .ok (model, _view) =>
    match (env.stores model.id).readByPk p.rowId with
    | none => .error (.notFound "Row not found")
    | some row => .ok row

/-! ### dataInsert (source lines 52–74) -/

/-- The argument record of `dataInsert`: the body is a single record's
    field data or an array of such (the `cookie` is not modelled). -/
structure InsertParam where
  projectId : Option String
  viewId : Option String
  modelId : String
  body : Body (List (String × String))

/-- The response of `dataInsert`: a single insert returns the inserted
    row object, a bulk insert returns the primary-key echoes. -/
inductive InsertResult where
  | obj (row : Row)
  | arr (pks : List String)
deriving DecidableEq, Repr

/-- True exactly on the array constructor. -/
def InsertResult.isArr : InsertResult → Bool
  | .obj _ => false
  | .arr _ => true

/-- Embedding of `dataInsert`: resolve model and view, then `bulkInsert`
    for an array body and single `insert` otherwise. The updated store
    is returned next to the response. -/
def dataInsert (env : Env) (p : InsertParam) :
    Except NcErr (InsertResult × Store) :=
  match getModelAndView env { projectId := p.projectId, viewId := p.viewId, modelId := p.modelId } with
  | .error e => .error e
  | .ok (model, _view) =>
    let store := env.stores model.id
    match p.body with
    | .arr ds =>
      let r := store.bulkInsert ds
      .ok (.arr r.2, r.1)
    | .obj d =>
      let r := store.insertRow d
      .ok (.obj r.2, r.1)

/-! ### dataUpdate (source lines 76–107) and dataDelete (source lines 109–139) -/

/-- The argument record of `dataUpdate` and `dataDelete`: the body is a
    record carrying a primary-key value (with optional field data) or an
    array of such records. -/
structure MutateParam where
  projectId : Option String
  modelId : String
  viewId : Option String
  body : Body Row

/-- The response of `dataUpdate`/`dataDelete`: an array of primary-key
    echoes for an array body, otherwise the first echo (`res[0]` in the
    source — `none` embeds JavaScript `undefined` on an empty result). -/
inductive PkResult where
  | obj (pk : Option String)
  | arr (pks : List String)
deriving DecidableEq, Repr

/-- True exactly on the array constructor. -/
def PkResult.isArr : PkResult → Bool
  | .obj _ => false
  | .arr _ => true

/-- Embedding of `dataUpdate`: resolve model and view, run
    `bulkUpdate` on the body wrapped into an array when it is a single
    object, and unwrap the first result for a single-object body. -/
def dataUpdate (env : Env) (p : MutateParam) :
    Except NcErr (PkResult × Store) :=
  match getModelAndView env { projectId := p.projectId, viewId := p.viewId, modelId := p.modelId } with
  | .error e => .error e
  | .ok (model, _view) =>
    let store := env.stores model.id
    let res := store.bulkUpdate (match p.body with | .arr rs => rs | .obj r => [r])
    match p.body with
    | .arr _ => .ok (.arr res.2, res.1)
    | .obj _ => .ok (.obj res.2.head?, res.1)

/-- Embedding of `dataDelete`. The source's delete path (lines 133–138)
    calls `baseModel.bulkUpdate` — not a delete primitive — on the body,
    and returns echoes with the same single-vs-array unwrapping as
    `dataUpdate`; the embedding reproduces that call verbatim. -/
def dataDelete (env : Env) (p : MutateParam) :
    Except NcErr (PkResult × Store) :=
  match getModelAndView env { projectId := p.projectId, viewId := p.viewId, modelId := p.modelId } with
  | .error e => .error e
  | .ok (model, _view) =>
    let store := env.stores model.id
    let res := store.bulkUpdate (match p.body with | .arr rs => rs | .obj r => [r])
    match p.body with
    | .arr _ => .ok (.arr res.2, res.1)
    | .obj _ => .ok (.obj res.2.head?, res.1)

/-! ### Spec-modelled list pipeline (the `DatasService.getDataList` collaborator) -/

/-- Modelled from the spec: decimal parsing of a numeric query
    parameter (the stand-in for JavaScript number coercion) — `some n`
    exactly when the string is a nonempty run of decimal digits, so a
    negative or otherwise non-numeric string parses to `none`. -/
def strToNat? (s : String) : Option Nat :=
  match s.data with
  | [] => none
  | cs =>
    if cs.all Char.isDigit then
      some (cs.foldl (fun n c => n * 10 + (c.toNat - 48)) 0)
    else none

/-- Modelled from the spec: the configured default page size (the
    repository's list tests observe a default `pageSize` of 25). -/
def defaultPageSize : Nat := 25

/-- Modelled from the spec: the configured maximum page size to which a
    requested limit is silently clamped. -/
def maxPageSize : Nat := 1000

/-- Modelled from the spec: limit normalization of the Pagination
    Calculator — a non-numeric or negative (or zero) limit is coerced to
    the configured default, and a valid limit is clamped to the
    configured maximum page size. -/
def parseLimit (s : Option String) : Nat :=
  match s.bind strToNat? with
  | some n => if n < 1 then defaultPageSize else min n maxPageSize
  | none => defaultPageSize

/-- Modelled from the spec: offset normalization of the Pagination
    Calculator — a non-numeric or negative offset is coerced to the
    default 0. -/
def parseOffset (s : Option String) : Nat :=
  match s.bind strToNat? with
  | some n => n
  | none => 0

/-- The `pageInfo` object of a list response. -/
structure PageInfo where
  totalRows : Nat
  page : Nat
  pageSize : Nat
  isFirstPage : Bool
  isLastPage : Bool
deriving DecidableEq, Repr

/-- Modelled from the spec: the Pagination Calculator —
    `page = floor(offset / pageSize) + 1`, `isFirstPage = (offset == 0)`,
    `isLastPage = (offset + pageSize >= totalRows)`. -/
def mkPageInfo (offset limit totalRows : Nat) : PageInfo :=
  { totalRows := totalRows
    page := offset / limit + 1
    pageSize := limit
    isFirstPage := decide (offset = 0)
    isLastPage := decide (totalRows ≤ offset + limit) }

/-- Modelled from the spec: the effective projection of the Field
    Projection Resolver under the View Rule Overlay — the requested
    fields (or, absent a request list, all table columns) intersected
    with the table's columns in table order, minus the view's
    hidden-field set. -/
def effectiveFields (model : TableModel) (view : Option View)
    (reqFields : Option (List String)) : List String :=
  let base := match reqFields with
    | some fs => model.columns.filter (fun c => fs.contains c)
    | none => model.columns
  match view with
  | some v => base.filter (fun c => !(v.hiddenFields.contains c))
  | none => base

/-- Modelled from the spec: projecting one stored row onto the
    effective field list. -/
def projectRow (fields : List String) (r : Row) : List (String × String) :=
  fields.filterMap (fun f => (r.data.lookup f).map (fun v => (f, v)))

/-- The request query of a list call: requested fields and the raw
    limit/offset strings (filter and sort are not modelled). -/
structure ListQuery where
  fields : Option (List String)
  limit : Option String
  offset : Option String
deriving DecidableEq, Repr

/-- A list response: the projected row page and its `pageInfo`. -/
structure ListResult where
  list : List (List (String × String))
  pageInfo : PageInfo
deriving DecidableEq, Repr

/-- Modelled from the spec: `DatasService.getDataList` — normalizes
    limit and offset, fails with a terminal unprocessable-request error
    when a syntactically valid offset exceeds the total row count, and
    otherwise returns the projected page together with the computed
    `pageInfo`. -/
def getDataList (model : TableModel) (view : Option View) (store : Store)
    (q : ListQuery) : Except NcErr ListResult :=
  let limit := parseLimit q.limit
  let offset := parseOffset q.offset
  let totalRows := store.rows.length
  if totalRows < offset then
    .error (.unprocessableEntity "Offset is beyond the total number of rows")
  else
    .ok { list := ((store.rows.drop offset).take limit).map
            (projectRow (effectiveFields model view q.fields))
          pageInfo := mkPageInfo offset limit totalRows }

/-! ### dataList (source lines 11–24) -/

/-- The argument record of `dataList`. -/
structure ListParam where
  projectId : Option String
  modelId : String
  viewId : Option String
  query : ListQuery

/-- Embedding of `dataList`: resolve model and view, then hand the
    query to the list pipeline of the `DatasService` collaborator. -/
def dataList (env : Env) (p : ListParam) : Except NcErr ListResult :=
  match getModelAndView env { projectId := p.projectId, viewId := p.viewId, modelId := p.modelId } with
  | .error e => .error e
  | .ok (model, view) => getDataList model view (env.stores model.id) p.query

/-! ### dataCount (source lines 141–165) -/

/-- Modelled from the spec: a stand-in for `JSON.parse` on the
    `filterArrJson` query parameter — `none` when the parameter is
    absent or not valid JSON (the source swallows the parse exception),
    otherwise a list of (field, value) equality filters written
    `[f=v;f=v;...]`. -/
def splitChar (sep : Char) : List Char → List (List Char)
  | [] => [[]]
  | c :: cs =>
    let r := splitChar sep cs
    if c = sep then [] :: r
    else
      match r with
      | [] => [[c]]
      | g :: gs => (c :: g) :: gs

def parseFilterArrJson : Option String → Option (List (String × String))
  | none => none
  | some s =>
    match s.data with
    | [] => none
    | c :: rest =>
      if c = '[' ∧ rest.getLast? = some ']' then
        some ((splitChar ';' rest.dropLast).filterMap (fun item =>
          match splitChar '=' item with
          | [f, v] => some (⟨f⟩, ⟨v⟩)
          | _ => none))
      else none

/-- Modelled from the spec: `BaseModel.count` — the number of stored
    rows matching the resolved filter; with no filter every row
    matches. -/
def Store.countRows (s : Store) (filterArr : Option (List (String × String))) : Nat :=
  match filterArr with
  | none => s.rows.length
  | some conds =>
    (s.rows.filter (fun r => conds.all (fun c => r.data.lookup c.1 == some c.2))).length

/-- The request query of a count call (only `filterArrJson` is
    modelled). -/
structure CountQuery where
  filterArrJson : Option String
deriving DecidableEq, Repr

/-- The argument record of `dataCount`. -/
structure CountParam where
  projectId : Option String
  viewId : Option String
  modelId : String
  query : CountQuery

/-- The `{ count }` response object of `dataCount`. -/
structure CountResult where
  count : Nat
deriving DecidableEq, Repr

/-- Embedding of `dataCount`: resolve model and view, attempt to parse
    `filterArrJson` (a failed parse is swallowed, leaving no filter,
    as in the source's empty `catch`), and return the `{ count }`
    object. -/
def dataCount (env : Env) (p : CountParam) : Except NcErr CountResult :=
  match getModelAndView env { projectId := p.projectId, viewId := p.viewId, modelId := p.modelId } with
  | .error e => .error e
  | .ok (model, _view) =>
    let filterArr := parseFilterArrJson p.query.filterArrJson
    .ok { count := (env.stores model.id).countRows filterArr }

/-! ### Concrete environments used by witnesses and counterexamples -/

/-- A small concrete table. -/
def sampleModel : TableModel :=
  { id := "m1", project_id := "p1", base_id := "b1", columns := ["Id", "Title"] }

/-- A row stored under primary key `"1"`. -/
def sampleRow : Row := { pk := "1", data := [("Id", "1"), ("Title", "hello")] }

/-- A store holding the single row `sampleRow`. -/
def sampleStore : Store := { rows := [sampleRow], nextId := 2 }

/-- An environment with the single table `m1` and no views. -/
def sampleEnv : Env :=
  { models := fun i => if i = "m1" then some sampleModel else none
    views := fun _ => none
    stores := fun i => if i = "m1" then sampleStore else { rows := [], nextId := 1 } }

/-- Replaces one table's backing store in an environment (used to state
    facts about the post-state of a mutation). -/
def withStore (env : Env) (modelId : String) (s : Store) : Env :=
  { env with stores := fun i => if i = modelId then s else env.stores i }

/-- True exactly on a `notFound` error result. -/
def isNotFoundErr {α : Type} : Except NcErr α → Bool
  | .error (.notFound _) => true
  | _ => false

/-- True exactly on an `ok` result. -/
def isOkResult {α : Type} : Except NcErr α → Bool
  | .ok _ => true
  | .error _ => false

/-- The result of taking the first element of a bulk `PkResult`
    (`res[0]` in the source, on the bulk response). -/
def PkResult.firstOfBulk : PkResult → PkResult
  | .arr pks => .obj pks.head?
  | .obj e => .obj e

/-- A view on table `m1` whose `fk_model_id` names a different table. -/
def mismatchView : View := { id := "v2", fk_model_id := some "other", hiddenFields := [] }

/-- `sampleEnv` extended with the mismatched view `v2`. -/
def envMismatch : Env :=
  { sampleEnv with views := fun i => if i = "v2" then some mismatchView else none }

/-- 400 rows with primary keys "1" … "400". -/
def rows400 : List Row :=
  (List.range 400).map (fun i => { pk := toString (i + 1), data := [("Id", toString (i + 1)), ("Title", "t")] })

/-- An environment whose table `m1` holds 400 rows. -/
def env400 : Env :=
  { models := fun i => if i = "m1" then some sampleModel else none
    views := fun _ => none
    stores := fun i => if i = "m1" then { rows := rows400, nextId := 401 } else { rows := [], nextId := 1 } }

/-- The list request `offset=200, limit=100` against `m1`. -/
def listParam400 : ListParam :=
  { projectId := none, modelId := "m1", viewId := none
    query := { fields := none, limit := some "100", offset := some "200" } }

/-- The successful response of `dataList env400 listParam400`. -/
def listResult400 : ListResult :=
  (dataList env400 listParam400).toOption.getD { list := [], pageInfo := mkPageInfo 0 1 0 }

/-- A view on `m1` hiding the `Title` field. -/
def hiddenView : View := { id := "v1", fk_model_id := some "m1", hiddenFields := ["Title"] }

/-- An environment with table `m1`, its one-row store, and `hiddenView`. -/
def envHidden : Env :=
  { models := fun i => if i = "m1" then some sampleModel else none
    views := fun i => if i = "v1" then some hiddenView else none
    stores := fun i => if i = "m1" then sampleStore else { rows := [], nextId := 1 } }

/-- A list request bound to `hiddenView` that explicitly asks for the
    hidden `Title` field. -/
def listParamHidden : ListParam :=
  { projectId := none, modelId := "m1", viewId := some "v1"
    query := { fields := some ["Id", "Title"], limit := none, offset := none } }

/-- The successful response of `dataList envHidden listParamHidden`. -/
def listResultHidden : ListResult :=
  (dataList envHidden listParamHidden).toOption.getD { list := [], pageInfo := mkPageInfo 0 1 0 }

/-- Decidable equality of operation results. -/
instance exceptDecidableEq {ε α : Type} [DecidableEq ε] [DecidableEq α] :
    DecidableEq (Except ε α)
  | .error a, .error b =>
    if h : a = b then .isTrue (by rw [h])
    else .isFalse (by intro he; cases he; exact h rfl)
  | .error _, .ok _ => .isFalse (by intro he; cases he)
  | .ok _, .error _ => .isFalse (by intro he; cases he)
  | .ok a, .ok b =>
    if h : a = b then .isTrue (by rw [h])
    else .isFalse (by intro he; cases he; exact h rfl)

/-! ### Error-propagation helper lemmas -/

theorem dataList_gmv_error (env : Env) (p : ListParam) (e : NcErr)
    (h : getModelAndView env { projectId := p.projectId, viewId := p.viewId, modelId := p.modelId } = .error e) :
    dataList env p = .error e := by
  simp only [dataList, h]

theorem dataRead_gmv_error (env : Env) (p : ReadParam) (e : NcErr)
    (h : getModelAndView env { projectId := p.projectId, viewId := p.viewId, modelId := p.modelId } = .error e) :
    dataRead env p = .error e := by
  simp only [dataRead, h]

theorem dataInsert_gmv_error (env : Env) (p : InsertParam) (e : NcErr)
    (h : getModelAndView env { projectId := p.projectId, viewId := p.viewId, modelId := p.modelId } = .error e) :
    dataInsert env p = .error e := by
  simp only [dataInsert, h]

theorem dataUpdate_gmv_error (env : Env) (p : MutateParam) (e : NcErr)
    (h : getModelAndView env { projectId := p.projectId, viewId := p.viewId, modelId := p.modelId } = .error e) :
    dataUpdate env p = .error e := by
  simp only [dataUpdate, h]

theorem dataDelete_gmv_error (env : Env) (p : MutateParam) (e : NcErr)
    (h : getModelAndView env { projectId := p.projectId, viewId := p.viewId, modelId := p.modelId } = .error e) :
    dataDelete env p = .error e := by
  simp only [dataDelete, h]

theorem dataCount_gmv_error (env : Env) (p : CountParam) (e : NcErr)
    (h : getModelAndView env { projectId := p.projectId, viewId := p.viewId, modelId := p.modelId } = .error e) :
    dataCount env p = .error e := by
  simp only [dataCount, h]

theorem gmv_model_missing (env : Env) (pr : GMVParam)
    (hm : env.models pr.modelId = none) :
    getModelAndView env pr = .error (.notFound "Model not found") := by
  simp only [getModelAndView, hm]

theorem gmv_view_missing (env : Env) (pr : GMVParam) (m : TableModel) (vid : String)
    (hm : env.models pr.modelId = some m)
    (hp : pr.projectId = none ∨ pr.projectId = some m.project_id)
    (hv : pr.viewId = some vid)
    (hview : env.views vid = none) :
    getModelAndView env pr = .error (.unprocessableEntity "View not belong to model") := by
  rcases hp with hp | hp <;>
    simp only [getModelAndView, hm, hp, resolveView, hv, hview, if_true, Except.map]

theorem gmv_view_mismatch (env : Env) (pr : GMVParam) (m : TableModel)
    (vid : String) (v : View) (fk : String)
    (hm : env.models pr.modelId = some m)
    (hp : pr.projectId = none ∨ pr.projectId = some m.project_id)
    (hv : pr.viewId = some vid)
    (hview : env.views vid = some v)
    (hfk : v.fk_model_id = some fk)
    (hne : fk ≠ pr.modelId) :
    getModelAndView env pr = .error (.unprocessableEntity "View not belong to model") := by
  rcases hp with hp | hp <;>
    simp only [getModelAndView, hm, hp, resolveView, hv, hview, hfk] <;>
    rw [if_neg hne] <;> simp [Except.map]

/-! ### Projection helper lemmas -/

theorem projectRow_keys_subset (fields : List String) (r : Row) :
    ∀ kv ∈ projectRow fields r, kv.1 ∈ fields := by
  intro kv hkv
  simp only [projectRow, List.mem_filterMap, Option.map_eq_some'] at hkv
  obtain ⟨f, hf, v, _, hkveq⟩ := hkv
  rw [← hkveq]
  exact hf

theorem effectiveFields_not_hidden (m : TableModel) (v : View)
    (rf : Option (List String)) (f : String)
    (hf : f ∈ effectiveFields m (some v) rf) : f ∉ v.hiddenFields := by
  intro hmem
  simp only [effectiveFields, List.mem_filter, Bool.not_eq_true'] at hf
  have := hf.2
  rw [List.contains_eq_any_beq] at this
  simp only [List.any_eq_false, beq_iff_eq] at this
  exact this f hmem rfl

/-! ### Claim theorems -/

/-- C1: the claim that `dataDelete` destroys the identified rows fails
    on the code: the delete path calls `baseModel.bulkUpdate` (an update,
    not a delete), so after a "successful" delete of row `"1"` the store
    is unchanged and a subsequent `dataRead` of that primary key still
    returns the row instead of failing with NotFound. -/
theorem c1_dataDelete_leaves_row_readable :
    dataDelete sampleEnv
        { projectId := none, modelId := "m1", viewId := none,
          body := Body.obj { pk := "1", data := [] } }
      = .ok (PkResult.obj (some "1"), sampleStore)
    ∧ dataRead (withStore sampleEnv "m1" sampleStore)
        { projectId := none, modelId := "m1", rowId := "1", viewId := none }
      = .ok sampleRow :=
  ⟨rfl, rfl⟩

/-- C2 (counterexample): a list request whose `viewId` resolves to no
    view fails with the unprocessable-entity error, not with a NotFound
    error as the claim states. -/
theorem c2_counterexample :
    dataList sampleEnv
        { projectId := none, modelId := "m1", viewId := some "v404",
          query := { fields := none, limit := none, offset := none } }
      = .error (.unprocessableEntity "View not belong to model")
    ∧ isNotFoundErr (dataList sampleEnv
        { projectId := none, modelId := "m1", viewId := some "v404",
          query := { fields := none, limit := none, offset := none } }) = false :=
  ⟨rfl, rfl⟩

/-- C2 (amended): for every operation (list, read, count, insert,
    update, delete) given a `viewId` that does not resolve to an
    existing view, the operation fails with a terminal
    unprocessable-entity error carrying the message
    `View not belong to model`. -/
theorem c2_unresolved_view_unprocessable (env : Env) (pid : Option String)
    (mid vid rid : String) (m : TableModel) (q : ListQuery) (cq : CountQuery)
    (b : Body Row) (ib : Body (List (String × String)))
    (hm : env.models mid = some m)
    (hp : pid = none ∨ pid = some m.project_id)
    (hv : env.views vid = none) :
    dataList env { projectId := pid, modelId := mid, viewId := some vid, query := q }
      = .error (.unprocessableEntity "View not belong to model")
    ∧ dataRead env { projectId := pid, modelId := mid, rowId := rid, viewId := some vid }
      = .error (.unprocessableEntity "View not belong to model")
    ∧ dataCount env { projectId := pid, viewId := some vid, modelId := mid, query := cq }
      = .error (.unprocessableEntity "View not belong to model")
    ∧ dataInsert env { projectId := pid, viewId := some vid, modelId := mid, body := ib }
      = .error (.unprocessableEntity "View not belong to model")
    ∧ dataUpdate env { projectId := pid, modelId := mid, viewId := some vid, body := b }
      = .error (.unprocessableEntity "View not belong to model")
    ∧ dataDelete env { projectId := pid, modelId := mid, viewId := some vid, body := b }
      = .error (.unprocessableEntity "View not belong to model") := by
  have hg : getModelAndView env { projectId := pid, viewId := some vid, modelId := mid }
      = .error (.unprocessableEntity "View not belong to model") :=
    gmv_view_missing env _ m vid hm hp rfl hv
  exact ⟨dataList_gmv_error _ _ _ hg, dataRead_gmv_error _ _ _ hg,
    dataCount_gmv_error _ _ _ hg, dataInsert_gmv_error _ _ _ hg,
    dataUpdate_gmv_error _ _ _ hg, dataDelete_gmv_error _ _ _ hg⟩

/-- C2 (witness): the amended theorem applied to the concrete
    environment at the unresolved view id `vX`. -/
theorem c2_witness :
    dataList sampleEnv
        { projectId := none, modelId := "m1", viewId := some "vX",
          query := { fields := none, limit := none, offset := none } }
      = .error (.unprocessableEntity "View not belong to model")
    ∧ dataRead sampleEnv { projectId := none, modelId := "m1", rowId := "1", viewId := some "vX" }
      = .error (.unprocessableEntity "View not belong to model")
    ∧ dataCount sampleEnv
        { projectId := none, viewId := some "vX", modelId := "m1",
          query := { filterArrJson := none } }
      = .error (.unprocessableEntity "View not belong to model")
    ∧ dataInsert sampleEnv
        { projectId := none, viewId := some "vX", modelId := "m1",
          body := Body.obj [("Title", "x")] }
      = .error (.unprocessableEntity "View not belong to model")
    ∧ dataUpdate sampleEnv
        { projectId := none, modelId := "m1", viewId := some "vX", body := Body.obj sampleRow }
      = .error (.unprocessableEntity "View not belong to model")
    ∧ dataDelete sampleEnv
        { projectId := none, modelId := "m1", viewId := some "vX", body := Body.obj sampleRow }
      = .error (.unprocessableEntity "View not belong to model") :=
  c2_unresolved_view_unprocessable sampleEnv none "m1" "vX" "1" sampleModel
    { fields := none, limit := none, offset := none } { filterArrJson := none }
    (Body.obj sampleRow) (Body.obj [("Title", "x")]) rfl (Or.inl rfl) rfl

/-- C3: for insert, update and delete alike the input shape is
    preserved in the output shape — a successful call on an array body
    yields an array result, and on a single-object body a single-object
    result, never a one-element array. -/
theorem c3_shape_preserved (env : Env) (pi : InsertParam) (pu pd : MutateParam)
    (ri : InsertResult) (si : Store) (ru rd : PkResult) (su sd : Store)
    (hi : dataInsert env pi = .ok (ri, si))
    (hu : dataUpdate env pu = .ok (ru, su))
    (hd : dataDelete env pd = .ok (rd, sd)) :
    ri.isArr = pi.body.isArr ∧ ru.isArr = pu.body.isArr ∧ rd.isArr = pd.body.isArr := by
  refine ⟨?_, ?_, ?_⟩
  · unfold dataInsert at hi
    cases hg : getModelAndView env { projectId := pi.projectId, viewId := pi.viewId, modelId := pi.modelId } with
    | error e => rw [hg] at hi; simp at hi
    | ok mv =>
      obtain ⟨model, view⟩ := mv
      rw [hg] at hi
      cases hb : pi.body with
      | obj d =>
        rw [hb] at hi
        simp only [Except.ok.injEq, Prod.mk.injEq] at hi
        rw [← hi.1]
        rfl
      | arr ds =>
        rw [hb] at hi
        simp only [Except.ok.injEq, Prod.mk.injEq] at hi
        rw [← hi.1]
        rfl
  · unfold dataUpdate at hu
    cases hg : getModelAndView env { projectId := pu.projectId, viewId := pu.viewId, modelId := pu.modelId } with
    | error e => rw [hg] at hu; simp at hu
    | ok mv =>
      obtain ⟨model, view⟩ := mv
      rw [hg] at hu
      cases hb : pu.body with
      | obj r =>
        rw [hb] at hu
        simp only [Except.ok.injEq, Prod.mk.injEq] at hu
        rw [← hu.1]
        rfl
      | arr rs =>
        rw [hb] at hu
        simp only [Except.ok.injEq, Prod.mk.injEq] at hu
        rw [← hu.1]
        rfl
  · unfold dataDelete at hd
    cases hg : getModelAndView env { projectId := pd.projectId, viewId := pd.viewId, modelId := pd.modelId } with
    | error e => rw [hg] at hd; simp at hd
    | ok mv =>
      obtain ⟨model, view⟩ := mv
      rw [hg] at hd
      cases hb : pd.body with
      | obj r =>
        rw [hb] at hd
        simp only [Except.ok.injEq, Prod.mk.injEq] at hd
        rw [← hd.1]
        rfl
      | arr rs =>
        rw [hb] at hd
        simp only [Except.ok.injEq, Prod.mk.injEq] at hd
        rw [← hd.1]
        rfl

/-- C3 (witness): the shape-preservation theorem applied to concrete
    single-object insert, update and delete calls on `sampleEnv`. -/
theorem c3_witness :
    InsertResult.isArr (InsertResult.obj { pk := "2", data := [("Title", "x")] })
      = Body.isArr (Body.obj ([("Title", "x")] : List (String × String)))
    ∧ PkResult.isArr (PkResult.obj (some "1"))
      = Body.isArr (Body.obj ({ pk := "1", data := [("Title", "bye")] } : Row))
    ∧ PkResult.isArr (PkResult.obj (some "1"))
      = Body.isArr (Body.obj ({ pk := "1", data := [] } : Row)) :=
  c3_shape_preserved sampleEnv
    { projectId := none, viewId := none, modelId := "m1", body := Body.obj [("Title", "x")] }
    { projectId := none, modelId := "m1", viewId := none,
      body := Body.obj { pk := "1", data := [("Title", "bye")] } }
    { projectId := none, modelId := "m1", viewId := none,
      body := Body.obj { pk := "1", data := [] } }
    (InsertResult.obj { pk := "2", data := [("Title", "x")] })
    { rows := [sampleRow, { pk := "2", data := [("Title", "x")] }], nextId := 3 }
    (PkResult.obj (some "1")) (PkResult.obj (some "1"))
    { rows := [{ pk := "1", data := [("Id", "1"), ("Title", "bye")] }], nextId := 2 }
    sampleStore rfl rfl rfl

/-- C4: for every operation, when the supplied view resolves but its
    `fk_model_id` is present and differs from the requested table, the
    request fails with the terminal unprocessable-entity error
    `View not belong to model` — there is no fallback to the table's
    default scope. -/
theorem c4_view_table_mismatch (env : Env) (pid : Option String)
    (mid vid rid fk : String) (m : TableModel) (v : View)
    (q : ListQuery) (cq : CountQuery)
    (b : Body Row) (ib : Body (List (String × String)))
    (hm : env.models mid = some m)
    (hp : pid = none ∨ pid = some m.project_id)
    (hv : env.views vid = some v)
    (hfk : v.fk_model_id = some fk)
    (hne : fk ≠ mid) :
    dataList env { projectId := pid, modelId := mid, viewId := some vid, query := q }
      = .error (.unprocessableEntity "View not belong to model")
    ∧ dataRead env { projectId := pid, modelId := mid, rowId := rid, viewId := some vid }
      = .error (.unprocessableEntity "View not belong to model")
    ∧ dataCount env { projectId := pid, viewId := some vid, modelId := mid, query := cq }
      = .error (.unprocessableEntity "View not belong to model")
    ∧ dataInsert env { projectId := pid, viewId := some vid, modelId := mid, body := ib }
      = .error (.unprocessableEntity "View not belong to model")
    ∧ dataUpdate env { projectId := pid, modelId := mid, viewId := some vid, body := b }
      = .error (.unprocessableEntity "View not belong to model")
    ∧ dataDelete env { projectId := pid, modelId := mid, viewId := some vid, body := b }
      = .error (.unprocessableEntity "View not belong to model") := by
  have hg : getModelAndView env { projectId := pid, viewId := some vid, modelId := mid }
      = .error (.unprocessableEntity "View not belong to model") :=
    gmv_view_mismatch env _ m vid v fk hm hp rfl hv hfk hne
  exact ⟨dataList_gmv_error _ _ _ hg, dataRead_gmv_error _ _ _ hg,
    dataCount_gmv_error _ _ _ hg, dataInsert_gmv_error _ _ _ hg,
    dataUpdate_gmv_error _ _ _ hg, dataDelete_gmv_error _ _ _ hg⟩

/-- C4 (witness): the mismatch theorem applied to `envMismatch`, whose
    view `v2` carries `fk_model_id = "other" ≠ "m1"`. -/
theorem c4_witness :
    dataList envMismatch
        { projectId := none, modelId := "m1", viewId := some "v2",
          query := { fields := none, limit := none, offset := none } }
      = .error (.unprocessableEntity "View not belong to model")
    ∧ dataRead envMismatch { projectId := none, modelId := "m1", rowId := "1", viewId := some "v2" }
      = .error (.unprocessableEntity "View not belong to model")
    ∧ dataCount envMismatch
        { projectId := none, viewId := some "v2", modelId := "m1",
          query := { filterArrJson := none } }
      = .error (.unprocessableEntity "View not belong to model")
    ∧ dataInsert envMismatch
        { projectId := none, viewId := some "v2", modelId := "m1",
          body := Body.obj [("Title", "x")] }
      = .error (.unprocessableEntity "View not belong to model")
    ∧ dataUpdate envMismatch
        { projectId := none, modelId := "m1", viewId := some "v2", body := Body.obj sampleRow }
      = .error (.unprocessableEntity "View not belong to model")
    ∧ dataDelete envMismatch
        { projectId := none, modelId := "m1", viewId := some "v2", body := Body.obj sampleRow }
      = .error (.unprocessableEntity "View not belong to model") :=
  c4_view_table_mismatch envMismatch none "m1" "v2" "1" "other" sampleModel mismatchView
    { fields := none, limit := none, offset := none } { filterArrJson := none }
    (Body.obj sampleRow) (Body.obj [("Title", "x")]) rfl (Or.inl rfl) rfl rfl
    (by decide)

/-- C5: for every operation, an unresolved table identifier yields the
    NotFound error `Model not found`, and for read, a rowId matching no
    row yields the NotFound error `Row not found`; both propagate
    unchanged as the operation's result. -/
theorem c5_notfound_errors (env : Env) :
    (∀ (pid : Option String) (mid rid : String) (vo : Option String)
        (q : ListQuery) (cq : CountQuery)
        (b : Body Row) (ib : Body (List (String × String))),
      env.models mid = none →
      dataList env { projectId := pid, modelId := mid, viewId := vo, query := q }
        = .error (.notFound "Model not found")
      ∧ dataRead env { projectId := pid, modelId := mid, rowId := rid, viewId := vo }
        = .error (.notFound "Model not found")
      ∧ dataCount env { projectId := pid, viewId := vo, modelId := mid, query := cq }
        = .error (.notFound "Model not found")
      ∧ dataInsert env { projectId := pid, viewId := vo, modelId := mid, body := ib }
        = .error (.notFound "Model not found")
      ∧ dataUpdate env { projectId := pid, modelId := mid, viewId := vo, body := b }
        = .error (.notFound "Model not found")
      ∧ dataDelete env { projectId := pid, modelId := mid, viewId := vo, body := b }
        = .error (.notFound "Model not found"))
    ∧ (∀ (pid : Option String) (mid rid : String) (m : TableModel),
      env.models mid = some m →
      (pid = none ∨ pid = some m.project_id) →
      (env.stores m.id).readByPk rid = none →
      dataRead env { projectId := pid, modelId := mid, rowId := rid, viewId := none }
        = .error (.notFound "Row not found")) := by
  constructor
  · intro pid mid rid vo q cq b ib hm
    have hg : getModelAndView env { projectId := pid, viewId := vo, modelId := mid }
        = .error (.notFound "Model not found") := gmv_model_missing env _ hm
    exact ⟨dataList_gmv_error _ _ _ hg, dataRead_gmv_error _ _ _ hg,
      dataCount_gmv_error _ _ _ hg, dataInsert_gmv_error _ _ _ hg,
      dataUpdate_gmv_error _ _ _ hg, dataDelete_gmv_error _ _ _ hg⟩
  · intro pid mid rid m hm hp hrow
    have hg : getModelAndView env { projectId := pid, viewId := none, modelId := mid }
        = .ok (m, none) := by
      rcases hp with hp | hp <;>
        simp only [getModelAndView, hm, hp, resolveView, Except.map, if_true]
    simp only [dataRead, hg, hrow]

/-- C5 (witness): the NotFound theorem applied at the unresolved table
    id `nope` and the unmatched row id `999` of `sampleEnv`. -/
theorem c5_witness :
    dataList sampleEnv
        { projectId := none, modelId := "nope", viewId := none,
          query := { fields := none, limit := none, offset := none } }
      = .error (.notFound "Model not found")
    ∧ dataRead sampleEnv { projectId := none, modelId := "m1", rowId := "999", viewId := none }
      = .error (.notFound "Row not found") :=
  ⟨((c5_notfound_errors sampleEnv).1 none "nope" "999" none
      { fields := none, limit := none, offset := none } { filterArrJson := none }
      (Body.obj sampleRow) (Body.obj [("Title", "x")]) rfl).1,
   (c5_notfound_errors sampleEnv).2 none "m1" "999" sampleModel rfl (Or.inl rfl) rfl⟩

/-- C6: for every successful list response, the `pageInfo` satisfies
    `page = floor(offset/limit)+1`, `pageSize = limit`,
    `isFirstPage = (offset == 0)` and
    `isLastPage = (offset+limit >= totalRows)`, where offset and limit
    are the normalized request parameters. -/
theorem c6_pageinfo_formulas (env : Env) (p : ListParam) (res : ListResult) (o l : Nat)
    (h : dataList env p = .ok res)
    (ho : parseOffset p.query.offset = o)
    (hl : parseLimit p.query.limit = l) :
    res.pageInfo.page = o / l + 1
    ∧ res.pageInfo.pageSize = l
    ∧ res.pageInfo.isFirstPage = decide (o = 0)
    ∧ res.pageInfo.isLastPage = decide (res.pageInfo.totalRows ≤ o + l) := by
  unfold dataList at h
  cases hg : getModelAndView env { projectId := p.projectId, viewId := p.viewId, modelId := p.modelId } with
  | error e => rw [hg] at h; simp at h
  | ok mv =>
    obtain ⟨m, v⟩ := mv
    rw [hg] at h
    simp only [getDataList, ho, hl] at h
    split at h
    · simp at h
    · simp only [Except.ok.injEq] at h
      rw [← h]
      exact ⟨rfl, rfl, rfl, rfl⟩

set_option maxRecDepth 100000 in
/-- C6 (witness): the formulas applied to the concrete scenario of a
    400-row table listed with `offset=200, limit=100`, whose `pageInfo`
    is `{totalRows:400, page:3, pageSize:100, isFirstPage:false,
    isLastPage:false}`. -/
theorem c6_witness :
    (listResult400.pageInfo.page = 200 / 100 + 1
      ∧ listResult400.pageInfo.pageSize = 100
      ∧ listResult400.pageInfo.isFirstPage = decide ((200 : Nat) = 0)
      ∧ listResult400.pageInfo.isLastPage
          = decide (listResult400.pageInfo.totalRows ≤ 200 + 100))
    ∧ listResult400.pageInfo
        = { totalRows := 400, page := 3, pageSize := 100,
            isFirstPage := false, isLastPage := false } :=
  ⟨c6_pageinfo_formulas env400 listParam400 listResult400 200 100 (by decide)
      (by decide) (by decide),
   by decide⟩

/-- C7: a non-numeric or negative limit/offset on a list request is
    coerced to the configured default and the request succeeds, whereas
    a syntactically valid offset exceeding the total row count fails
    with the terminal unprocessable-request offset error rather than
    returning a truncated or empty list. -/
theorem c7_limit_offset_policy (env : Env) (pid : Option String) (mid : String)
    (m : TableModel) (v : Option View)
    (hg : getModelAndView env { projectId := pid, viewId := none, modelId := mid } = .ok (m, v)) :
    (∀ q : ListQuery, q.limit.bind strToNat? = none →
      q.offset.bind strToNat? = none →
      parseLimit q.limit = defaultPageSize ∧ parseOffset q.offset = 0
      ∧ isOkResult (dataList env { projectId := pid, modelId := mid, viewId := none, query := q }) = true)
    ∧ (∀ (q : ListQuery) (o : Nat), q.offset.bind strToNat? = some o →
      (env.stores m.id).rows.length < o →
      dataList env { projectId := pid, modelId := mid, viewId := none, query := q }
        = .error (.unprocessableEntity "Offset is beyond the total number of rows")) := by
  constructor
  · intro q hlim hoff
    refine ⟨by simp only [parseLimit, hlim], by simp only [parseOffset, hoff], ?_⟩
    simp only [dataList, hg, getDataList, parseOffset, hoff]
    simp [isOkResult]
  · intro q o hoff hgt
    simp only [dataList, hg, getDataList, parseOffset, hoff]
    rw [if_pos hgt]

set_option maxRecDepth 100000 in
/-- C7 (witness): the policy applied to the 400-row table — limit
    `abc` with offset `-100` succeeds after coercion, while offset
    `10000` is the terminal offset error. -/
theorem c7_witness :
    (parseLimit (some "abc") = defaultPageSize
      ∧ parseOffset (some "-100") = 0
      ∧ isOkResult (dataList env400
          { projectId := none, modelId := "m1", viewId := none,
            query := { fields := none, limit := some "abc", offset := some "-100" } }) = true)
    ∧ dataList env400
        { projectId := none, modelId := "m1", viewId := none,
          query := { fields := none, limit := some "100", offset := some "10000" } }
      = .error (.unprocessableEntity "Offset is beyond the total number of rows") :=
  ⟨(c7_limit_offset_policy env400 none "m1" sampleModel none (by decide)).1
      { fields := none, limit := some "abc", offset := some "-100" } (by decide) (by decide),
   (c7_limit_offset_policy env400 none "m1" sampleModel none (by decide)).2
      { fields := none, limit := some "100", offset := some "10000" } 10000 (by decide)
      (by decide)⟩

/-- C8: for every list request whose view resolution binds a view, no
    field of that view's hidden-field set ever appears in the returned
    rows, regardless of the request-supplied `fields` parameter. -/
theorem c8_hidden_fields_never_returned (env : Env) (p : ListParam)
    (m : TableModel) (v : View) (res : ListResult)
    (hg : getModelAndView env { projectId := p.projectId, viewId := p.viewId, modelId := p.modelId }
      = .ok (m, some v))
    (hres : dataList env p = .ok res) :
    ∀ row ∈ res.list, ∀ kv ∈ row, kv.1 ∉ v.hiddenFields := by
  unfold dataList at hres
  rw [hg] at hres
  simp only [getDataList] at hres
  split at hres
  · simp at hres
  · simp only [Except.ok.injEq] at hres
    rw [← hres]
    intro row hrow kv hkv
    simp only [List.mem_map] at hrow
    obtain ⟨r, _, hr⟩ := hrow
    rw [← hr] at hkv
    exact effectiveFields_not_hidden m v p.query.fields kv.1
      (projectRow_keys_subset _ r kv hkv)

/-- C8 (witness): the hidden-field theorem applied to `envHidden`,
    whose view hides `Title` while the request asks for both `Id` and
    `Title`; the one returned row carries only `Id`. -/
theorem c8_witness :
    listResultHidden.list = [[("Id", "1")]]
    ∧ ("Id", "1").1 ∉ hiddenView.hiddenFields :=
  ⟨by decide,
   c8_hidden_fields_never_returned envHidden listParamHidden sampleModel hiddenView
      listResultHidden (by decide) (by decide) [("Id", "1")] (by decide)
      ("Id", "1") (by decide)⟩

/-- C9: `dataCount` always returns an object of shape `{count}` with
    the matched row count, and when the `filterArrJson` parameter is
    absent or not valid JSON the unparseable filter is dropped and the
    request still proceeds, counting every row. -/
theorem c9_count_shape_and_permissive (env : Env) (p : CountParam)
    (m : TableModel) (vv : Option View)
    (hg : getModelAndView env { projectId := p.projectId, viewId := p.viewId, modelId := p.modelId }
      = .ok (m, vv)) :
    dataCount env p
      = .ok { count := (env.stores m.id).countRows (parseFilterArrJson p.query.filterArrJson) }
    ∧ (parseFilterArrJson p.query.filterArrJson = none →
        dataCount env p = .ok { count := (env.stores m.id).rows.length }) := by
  constructor
  · simp only [dataCount, hg]
  · intro hnone
    simp only [dataCount, hg, hnone, Store.countRows]

/-- C9 (witness): the count theorem applied to `sampleEnv` with the
    invalid filter string `not json`: the filter is dropped and the
    single stored row is counted. -/
theorem c9_witness :
    dataCount sampleEnv
        { projectId := none, viewId := none, modelId := "m1",
          query := { filterArrJson := some "not json" } }
      = .ok { count := 1 }
    ∧ parseFilterArrJson (some "not json") = none :=
  ⟨(c9_count_shape_and_permissive sampleEnv
      { projectId := none, viewId := none, modelId := "m1",
        query := { filterArrJson := some "not json" } }
      sampleModel none (by decide)).2 (by decide),
   by decide⟩

/-- C10: for a single-object body, `dataUpdate` is the bulk path run on
    the one-element batch followed by taking the first echo, and
    `dataDelete` treats a single-object body the same way. -/
theorem c10_single_refines_bulk (env : Env) (pid : Option String) (mid : String)
    (vid : Option String) (r : Row) :
    dataUpdate env { projectId := pid, modelId := mid, viewId := vid, body := Body.obj r }
      = (dataUpdate env { projectId := pid, modelId := mid, viewId := vid, body := Body.arr [r] }).map
          (fun x => (x.1.firstOfBulk, x.2))
    ∧ dataDelete env { projectId := pid, modelId := mid, viewId := vid, body := Body.obj r }
      = (dataDelete env { projectId := pid, modelId := mid, viewId := vid, body := Body.arr [r] }).map
          (fun x => (x.1.firstOfBulk, x.2)) := by
  constructor
  · unfold dataUpdate
    cases getModelAndView env { projectId := pid, viewId := vid, modelId := mid } with
    | error e => rfl
    | ok mv => obtain ⟨m, v⟩ := mv; rfl
  · unfold dataDelete
    cases getModelAndView env { projectId := pid, viewId := vid, modelId := mid } with
    | error e => rfl
    | ok mv => obtain ⟨m, v⟩ := mv; rfl

/-- C10 (witness): the refinement applied to the concrete single-row
    update and delete on `sampleEnv`. -/
theorem c10_witness :
    dataUpdate sampleEnv
        { projectId := none, modelId := "m1", viewId := none, body := Body.obj sampleRow }
      = (dataUpdate sampleEnv
          { projectId := none, modelId := "m1", viewId := none, body := Body.arr [sampleRow] }).map
          (fun x => (x.1.firstOfBulk, x.2))
    ∧ dataDelete sampleEnv
        { projectId := none, modelId := "m1", viewId := none, body := Body.obj sampleRow }
      = (dataDelete sampleEnv
          { projectId := none, modelId := "m1", viewId := none, body := Body.arr [sampleRow] }).map
          (fun x => (x.1.firstOfBulk, x.2)) :=
  c10_single_refines_bulk sampleEnv none "m1" none sampleRow

end NocoDB
